import Mathlib

/-!
Verification of the GDJS runtime registry and lifecycle-callback bus
(`src/GDJS/Runtime/gd.js`).

The embedding is parametric in the type `α` of constructor values and the
type `κ` of callback values: both are opaque capabilities in the source
(JS functions stored and returned, never inspected by this module).

Functions that write to the console return, next to their value, the list
of lines they print on the diagnostic stream (`console.warn`), so that
diagnostic behaviour is part of each definition.
-/

/-- A JS value passed as a type-identifier argument: either a string or
the JS value `undefined` (`gd.js` tests `name !== undefined` explicitly,
so the embedding of identifiers must distinguish the two). -/
inductive JSName where
  | str : String → JSName
  | undefined : JSName
  deriving DecidableEq, Repr

/-- JS string coercion of an identifier argument, as performed by string
concatenation and property-key access: `undefined` coerces to the string
literal `undefined`. -/
def JSName.asJSString : JSName → String
  | JSName.str s => s
  | JSName.undefined => "undefined"

/-- The JS test `name !== undefined` from `gd.js`. -/
def JSName.isUndefined : JSName → Bool
  | JSName.str _ => false
  | JSName.undefined => true

namespace Hashtable

/-- Modelled from the spec: the `Hashtable` class is not under `src/`
(`gd.js` only calls `new Hashtable()`, `put`, `containsKey` and `get`).
The spec describes the registry it implements as a mapping from string
TypeIdentifier to ConstructorEntry, keys unique, last registration for a
given key wins (re-registration silently overwrites), insertion order
irrelevant. `put` stores a binding, overwriting any existing binding for
the same key. -/
def put (t : List (String × α)) (k : String) (v : α) : List (String × α) :=
  (k, v) :: t.filter (fun p => decide (p.1 ≠ k))

/-- Modelled from the spec: membership test of the registry mapping (the
`containsKey` method of the missing `Hashtable` class). -/
def containsKey (t : List (String × α)) (k : String) : Bool :=
  t.any (fun p => decide (p.1 = k))

/-- Modelled from the spec: lookup in the registry mapping (the `get`
method of the missing `Hashtable` class); `none` is the JS `undefined`
obtained when reading an absent key. -/
def get (t : List (String × α)) (k : String) : Option α :=
  (t.find? (fun p => decide (p.1 = k))).map (fun p => p.2)

theorem containsKey_put_self (t : List (String × α)) (k : String) (v : α) :
    containsKey (put t k v) k = true := by
  simp [containsKey, put]

theorem get_put_self (t : List (String × α)) (k : String) (v : α) :
    get (put t k v) k = some v := by
  simp [get, put, List.find?]

theorem isSome_get_of_containsKey (t : List (String × α)) (k : String)
    (h : containsKey t k = true) : (get t k).isSome = true := by
  rw [containsKey, List.any_eq_true] at h
  obtain ⟨p, hp, hpk⟩ := h
  have hfind : (List.find? (fun p => decide (p.1 = k)) t).isSome = true := by
    rw [List.find?_isSome]
    exact ⟨p, hp, hpk⟩
  obtain ⟨q, hq⟩ := Option.isSome_iff_exists.mp hfind
  rw [get, hq]
  rfl

end Hashtable

/-- The mutable state of the `gdjs` namespace object, as initialized on
lines 11 to 26 of `gd.js`: two type registries (objects, behaviors) and
five lifecycle callback arrays. -/
structure GdjsState (α κ : Type) where
  objectsTypes : List (String × α)
  behaviorsTypes : List (String × α)
  callbacksRuntimeSceneLoaded : List κ
  callbacksRuntimeSceneUnloaded : List κ
  callbacksRuntimeScenePaused : List κ
  callbacksRuntimeSceneResumed : List κ
  callbacksObjectDeletedFromScene : List κ
  deriving DecidableEq, Repr

namespace gdjs

variable {α κ : Type}

/-- The initial `window.gdjs` state: `objectsTypes` and `behaviorsTypes`
are fresh empty hashtables and all five callback arrays are empty. -/
def initialGdjs (α κ : Type) : GdjsState α κ :=
  { objectsTypes := []
    behaviorsTypes := []
    callbacksRuntimeSceneLoaded := []
    callbacksRuntimeSceneUnloaded := []
    callbacksRuntimeScenePaused := []
    callbacksRuntimeSceneResumed := []
    callbacksObjectDeletedFromScene := [] }

/-- `gdjs.registerObject(objectTypeName, Ctor)`: stores the constructor in
the objects registry. The second component is the console output of the
call (this function prints nothing). -/
def registerObject (st : GdjsState α κ) (objectTypeName : String) (Ctor : α) :
    GdjsState α κ × List String :=
  ({ st with objectsTypes := Hashtable.put st.objectsTypes objectTypeName Ctor }, [])

/-- `gdjs.registerBehavior(behaviorTypeName, Ctor)`: stores the constructor
in the behaviors registry; prints nothing. -/
def registerBehavior (st : GdjsState α κ) (behaviorTypeName : String) (Ctor : α) :
    GdjsState α κ × List String :=
  ({ st with behaviorsTypes := Hashtable.put st.behaviorsTypes behaviorTypeName Ctor }, [])

/-- `gdjs.registerRuntimeSceneLoadedCallback(callback)`: appends to the
scene-loaded callback array (`Array.push`); prints nothing. -/
def registerRuntimeSceneLoadedCallback (st : GdjsState α κ) (callback : κ) :
    GdjsState α κ × List String :=
  ({ st with callbacksRuntimeSceneLoaded := st.callbacksRuntimeSceneLoaded ++ [callback] }, [])

/-- `gdjs.registerRuntimeSceneUnloadedCallback(callback)`. -/
def registerRuntimeSceneUnloadedCallback (st : GdjsState α κ) (callback : κ) :
    GdjsState α κ × List String :=
  ({ st with callbacksRuntimeSceneUnloaded := st.callbacksRuntimeSceneUnloaded ++ [callback] }, [])

/-- `gdjs.registerRuntimeScenePausedCallback(callback)`. -/
def registerRuntimeScenePausedCallback (st : GdjsState α κ) (callback : κ) :
    GdjsState α κ × List String :=
  ({ st with callbacksRuntimeScenePaused := st.callbacksRuntimeScenePaused ++ [callback] }, [])

/-- `gdjs.registerRuntimeSceneResumedCallback(callback)`. -/
def registerRuntimeSceneResumedCallback (st : GdjsState α κ) (callback : κ) :
    GdjsState α κ × List String :=
  ({ st with callbacksRuntimeSceneResumed := st.callbacksRuntimeSceneResumed ++ [callback] }, [])

/-- `gdjs.registerObjectDeletedFromSceneCallback(callback)`. -/
def registerObjectDeletedFromSceneCallback (st : GdjsState α κ) (callback : κ) :
    GdjsState α κ × List String :=
  ({ st with callbacksObjectDeletedFromScene := st.callbacksObjectDeletedFromScene ++ [callback] }, [])

/-- `gdjs.clearGlobalCallbacks()`: resets the five callback arrays to fresh
empty arrays; prints nothing. -/
def clearGlobalCallbacks (st : GdjsState α κ) : GdjsState α κ × List String :=
  ({ st with
      callbacksRuntimeSceneLoaded := []
      callbacksRuntimeSceneUnloaded := []
      callbacksRuntimeScenePaused := []
      callbacksRuntimeSceneResumed := []
      callbacksObjectDeletedFromScene := [] }, [])

/-- `gdjs.getObjectConstructor(name)`: if `name !== undefined` and the
objects registry contains it, return the stored constructor; otherwise
print one `console.warn` line and return the entry registered under the
empty identifier. The `&&` mirrors the short-circuit of the source: when
`name` is `undefined` the membership test is never consulted (its value is
irrelevant, as `false && b = false` for every `b`). -/
def getObjectConstructor (st : GdjsState α κ) (name : JSName) :
    Option α × List String :=
  if !name.isUndefined && Hashtable.containsKey st.objectsTypes name.asJSString then
    (Hashtable.get st.objectsTypes name.asJSString, [])
  else
    (Hashtable.get st.objectsTypes "",
      ["Object type \"" ++ name.asJSString ++ "\" was not found."])

/-- `gdjs.getBehaviorConstructor(name)`: symmetric to
`getObjectConstructor`, over the behaviors registry. -/
def getBehaviorConstructor (st : GdjsState α κ) (name : JSName) :
    Option α × List String :=
  if !name.isUndefined && Hashtable.containsKey st.behaviorsTypes name.asJSString then
    (Hashtable.get st.behaviorsTypes name.asJSString, [])
  else
    (Hashtable.get st.behaviorsTypes "",
      ["Behavior type \"" ++ name.asJSString ++ "\" was not found."])

/-- The console methods available to `gd.js` in a standard JS host: the
host provides `console.log`, and the last lines of `gd.js` guarantee
`console.warn` and `console.error` exist (falling back to `console.log`).
No standard host, and nothing in `gd.js`, defines a `console.warning`
method. -/
def consoleMethods : List String := ["log", "warn", "error"]

/-- JS method call on the console object: reading a missing property
yields `undefined`, and invoking `undefined` raises a `TypeError`. On
success the result is the list of printed lines. -/
def callConsole (method : String) (message : String) : Except String (List String) :=
  if consoleMethods.any (fun m => decide (m = method)) then
    Except.ok [message]
  else
    Except.error ("TypeError: console." ++ method ++ " is not a function")

/-- `gdjs.registerGlobalCallbacks()` (deprecated): its body is a single
call to `console.warning(...)` with a deprecation message; it touches no
registry and no callback array. -/
def registerGlobalCallbacks : Except String (List String) :=
  callConsole "warning"
    "You\x27re calling gdjs.registerGlobalCallbacks. This method is now useless and you must not call it anymore."

/-- One callback-registration call, one variant per lifecycle event kind
(used to speak about interleavings of registrations). -/
inductive CallbackReg (κ : Type) where
  | sceneLoaded : κ → CallbackReg κ
  | sceneUnloaded : κ → CallbackReg κ
  | scenePaused : κ → CallbackReg κ
  | sceneResumed : κ → CallbackReg κ
  | objectDeletedFromScene : κ → CallbackReg κ
  deriving DecidableEq, Repr

/-- Whether a registration call targets the scene-loaded list. -/
def CallbackReg.isSceneLoadedReg : CallbackReg κ → Bool
  | CallbackReg.sceneLoaded _ => true
  | _ => false

/-- Execute one callback-registration call on the state. -/
def applyCallbackReg (st : GdjsState α κ) : CallbackReg κ → GdjsState α κ
  | CallbackReg.sceneLoaded c => (registerRuntimeSceneLoadedCallback st c).1
  | CallbackReg.sceneUnloaded c => (registerRuntimeSceneUnloadedCallback st c).1
  | CallbackReg.scenePaused c => (registerRuntimeScenePausedCallback st c).1
  | CallbackReg.sceneResumed c => (registerRuntimeSceneResumedCallback st c).1
  | CallbackReg.objectDeletedFromScene c => (registerObjectDeletedFromSceneCallback st c).1

/-- Execute a sequence of callback-registration calls in order. -/
def applyCallbackRegs (st : GdjsState α κ) : List (CallbackReg κ) → GdjsState α κ
  | [] => st
  | op :: rest => applyCallbackRegs (applyCallbackReg st op) rest

/-- Modelled from the spec: dispatch of the scene-loaded event is owned by
the external scene-management collaborator (it is not in `gd.js`); the
spec requires it to iterate the relevant list in registration order and
invoke every callback synchronously. The value is the sequence of
callbacks invoked, in invocation order. -/
def dispatchRuntimeSceneLoaded (st : GdjsState α κ) : List κ :=
  st.callbacksRuntimeSceneLoaded

/-- Modelled from the spec: dispatch of the scene-unloaded event. -/
def dispatchRuntimeSceneUnloaded (st : GdjsState α κ) : List κ :=
  st.callbacksRuntimeSceneUnloaded

/-- Modelled from the spec: dispatch of the scene-paused event. -/
def dispatchRuntimeScenePaused (st : GdjsState α κ) : List κ :=
  st.callbacksRuntimeScenePaused

/-- Modelled from the spec: dispatch of the scene-resumed event. -/
def dispatchRuntimeSceneResumed (st : GdjsState α κ) : List κ :=
  st.callbacksRuntimeSceneResumed

/-- Modelled from the spec: dispatch of the object-deleted-from-scene
event. -/
def dispatchObjectDeletedFromScene (st : GdjsState α κ) : List κ :=
  st.callbacksObjectDeletedFromScene

/-- One registration or reset call (the infallible mutating API of
`gd.js`: the two registry registrations, the five callback registrations,
and the clear). -/
inductive GdjsCall (α κ : Type) where
  | regObject : String → α → GdjsCall α κ
  | regBehavior : String → α → GdjsCall α κ
  | regSceneLoaded : κ → GdjsCall α κ
  | regSceneUnloaded : κ → GdjsCall α κ
  | regScenePaused : κ → GdjsCall α κ
  | regSceneResumed : κ → GdjsCall α κ
  | regObjectDeletedFromScene : κ → GdjsCall α κ
  | clearCallbacks : GdjsCall α κ

/-- Execute one registration or reset call, returning the new state and
the console output of the call. -/
def runCall (st : GdjsState α κ) : GdjsCall α κ → GdjsState α κ × List String
  | GdjsCall.regObject id ctor => registerObject st id ctor
  | GdjsCall.regBehavior id ctor => registerBehavior st id ctor
  | GdjsCall.regSceneLoaded c => registerRuntimeSceneLoadedCallback st c
  | GdjsCall.regSceneUnloaded c => registerRuntimeSceneUnloadedCallback st c
  | GdjsCall.regScenePaused c => registerRuntimeScenePausedCallback st c
  | GdjsCall.regSceneResumed c => registerRuntimeSceneResumedCallback st c
  | GdjsCall.regObjectDeletedFromScene c => registerObjectDeletedFromSceneCallback st c
  | GdjsCall.clearCallbacks => clearGlobalCallbacks st

/-- Execute a sequence of registration/reset calls, accumulating all
console output in order. -/
def runCalls (st : GdjsState α κ) : List (GdjsCall α κ) → GdjsState α κ × List String
  | [] => (st, [])
  | call :: rest =>
    ((runCalls (runCall st call).1 rest).1,
      (runCall st call).2 ++ (runCalls (runCall st call).1 rest).2)

end gdjs

theorem runCall_output_nil {α κ : Type} (st : GdjsState α κ) (call : gdjs.GdjsCall α κ) :
    (gdjs.runCall st call).2 = [] := by
  cases call <;> rfl

theorem applyCallbackRegs_sceneLoaded_of_none {α κ : Type} (st : GdjsState α κ)
    (ops : List (gdjs.CallbackReg κ))
    (h : ∀ op ∈ ops, op.isSceneLoadedReg = false) :
    (gdjs.applyCallbackRegs st ops).callbacksRuntimeSceneLoaded
      = st.callbacksRuntimeSceneLoaded := by
  induction ops generalizing st with
  | nil => rfl
  | cons op rest ih =>
    rw [gdjs.applyCallbackRegs]
    rw [ih _ (fun o ho => h o (List.mem_cons_of_mem _ ho))]
    have hop := h op (List.mem_cons_self _ _)
    cases op with
    | sceneLoaded c => simp [gdjs.CallbackReg.isSceneLoadedReg] at hop
    | sceneUnloaded c => rfl
    | scenePaused c => rfl
    | sceneResumed c => rfl
    | objectDeletedFromScene c => rfl

theorem applyCallbackReg_sceneLoaded {α κ : Type} (st : GdjsState α κ) (c : κ) :
    (gdjs.applyCallbackReg st (gdjs.CallbackReg.sceneLoaded c)).callbacksRuntimeSceneLoaded
      = st.callbacksRuntimeSceneLoaded ++ [c] := rfl

/-- Claim C1: after `registerObject(id, ctor)`, `getObjectConstructor(id)`
returns `ctor` (with no diagnostic); registering the same identifier twice
with different constructors makes the second registration win, and the
re-registration itself emits no diagnostic. -/
theorem registerObject_resolves_last_write {α κ : Type} (st : GdjsState α κ)
    (id : String) (ctor ca cb : α) :
    gdjs.getObjectConstructor (gdjs.registerObject st id ctor).1 (JSName.str id)
      = (some ctor, [])
  ∧ gdjs.getObjectConstructor
      (gdjs.registerObject (gdjs.registerObject st id ca).1 id cb).1 (JSName.str id)
      = (some cb, [])
  ∧ (gdjs.registerObject (gdjs.registerObject st id ca).1 id cb).2 = [] := by
  refine ⟨?_, ?_, rfl⟩ <;>
    simp [gdjs.getObjectConstructor, gdjs.registerObject, JSName.isUndefined,
      JSName.asJSString, Hashtable.containsKey_put_self, Hashtable.get_put_self]

/-- Claim C2: for an identifier absent from the objects registry while the
empty identifier is registered, `getObjectConstructor(id)` returns the
same constructor as `getObjectConstructor("")`, that constructor exists
(the call does not fail), and exactly one warning line is printed, whose
text contains the unresolved identifier. -/
theorem getObjectConstructor_missing_falls_back {α κ : Type} (st : GdjsState α κ)
    (id : String)
    (hmiss : Hashtable.containsKey st.objectsTypes id = false)
    (hdefault : Hashtable.containsKey st.objectsTypes "" = true) :
    (gdjs.getObjectConstructor st (JSName.str id)).1
        = (gdjs.getObjectConstructor st (JSName.str "")).1
  ∧ ((gdjs.getObjectConstructor st (JSName.str id)).1).isSome = true
  ∧ (gdjs.getObjectConstructor st (JSName.str id)).2
        = ["Object type \"" ++ id ++ "\" was not found."] := by
  have h1 : gdjs.getObjectConstructor st (JSName.str id)
      = (Hashtable.get st.objectsTypes "",
          ["Object type \"" ++ id ++ "\" was not found."]) := by
    simp [gdjs.getObjectConstructor, JSName.isUndefined, JSName.asJSString, hmiss]
  have h2 : gdjs.getObjectConstructor st (JSName.str "")
      = (Hashtable.get st.objectsTypes "", []) := by
    simp [gdjs.getObjectConstructor, JSName.isUndefined, JSName.asJSString, hdefault]
  refine ⟨by rw [h1, h2], ?_, by rw [h1]⟩
  rw [h1]
  exact Hashtable.isSome_get_of_containsKey _ _ hdefault

/-- Concrete instance of the C2 theorem: only the empty identifier is
registered (constructor `0`), and `Sprite::Unknown` is looked up. -/
theorem getObjectConstructor_missing_falls_back_witness :
    Hashtable.containsKey
        ((gdjs.registerObject (gdjs.initialGdjs ℕ ℕ) "" 0).1).objectsTypes
        "Sprite::Unknown" = false
  ∧ Hashtable.containsKey
        ((gdjs.registerObject (gdjs.initialGdjs ℕ ℕ) "" 0).1).objectsTypes "" = true
  ∧ ((gdjs.getObjectConstructor (gdjs.registerObject (gdjs.initialGdjs ℕ ℕ) "" 0).1
          (JSName.str "Sprite::Unknown")).1
        = (gdjs.getObjectConstructor (gdjs.registerObject (gdjs.initialGdjs ℕ ℕ) "" 0).1
            (JSName.str "")).1
     ∧ ((gdjs.getObjectConstructor (gdjs.registerObject (gdjs.initialGdjs ℕ ℕ) "" 0).1
            (JSName.str "Sprite::Unknown")).1).isSome = true
     ∧ (gdjs.getObjectConstructor (gdjs.registerObject (gdjs.initialGdjs ℕ ℕ) "" 0).1
            (JSName.str "Sprite::Unknown")).2
        = ["Object type \"" ++ "Sprite::Unknown" ++ "\" was not found."]) :=
  ⟨by decide, by decide,
    getObjectConstructor_missing_falls_back _ _ (by decide) (by decide)⟩

/-- Claim C3: `registerObject` mutates only the objects registry: the
behaviors registry and all five callback lists are unchanged, and behavior
resolution is unaffected for every identifier. -/
theorem registerObject_only_mutates_object_registry {α κ : Type}
    (st : GdjsState α κ) (id : String) (ctor : α) (n : JSName) :
    ((gdjs.registerObject st id ctor).1).behaviorsTypes = st.behaviorsTypes
  ∧ ((gdjs.registerObject st id ctor).1).callbacksRuntimeSceneLoaded
      = st.callbacksRuntimeSceneLoaded
  ∧ ((gdjs.registerObject st id ctor).1).callbacksRuntimeSceneUnloaded
      = st.callbacksRuntimeSceneUnloaded
  ∧ ((gdjs.registerObject st id ctor).1).callbacksRuntimeScenePaused
      = st.callbacksRuntimeScenePaused
  ∧ ((gdjs.registerObject st id ctor).1).callbacksRuntimeSceneResumed
      = st.callbacksRuntimeSceneResumed
  ∧ ((gdjs.registerObject st id ctor).1).callbacksObjectDeletedFromScene
      = st.callbacksObjectDeletedFromScene
  ∧ gdjs.getBehaviorConstructor (gdjs.registerObject st id ctor).1 n
      = gdjs.getBehaviorConstructor st n :=
  ⟨rfl, rfl, rfl, rfl, rfl, rfl, rfl⟩

/-- Claim C4: three callbacks registered in order on the scene-loaded
list, with arbitrary registrations on the other four event kinds
interleaved anywhere, end up as exactly that list in registration order,
so dispatch invokes them in that order. -/
theorem sceneLoaded_callbacks_fire_in_registration_order {α κ : Type}
    (st : GdjsState α κ) (ca cb cc : κ)
    (ops0 ops1 ops2 ops3 : List (gdjs.CallbackReg κ))
    (hst : st.callbacksRuntimeSceneLoaded = [])
    (h0 : ∀ op ∈ ops0, op.isSceneLoadedReg = false)
    (h1 : ∀ op ∈ ops1, op.isSceneLoadedReg = false)
    (h2 : ∀ op ∈ ops2, op.isSceneLoadedReg = false)
    (h3 : ∀ op ∈ ops3, op.isSceneLoadedReg = false) :
    gdjs.dispatchRuntimeSceneLoaded
      (gdjs.applyCallbackRegs
        (gdjs.applyCallbackReg
          (gdjs.applyCallbackRegs
            (gdjs.applyCallbackReg
              (gdjs.applyCallbackRegs
                (gdjs.applyCallbackReg (gdjs.applyCallbackRegs st ops0)
                  (gdjs.CallbackReg.sceneLoaded ca))
                ops1)
              (gdjs.CallbackReg.sceneLoaded cb))
            ops2)
          (gdjs.CallbackReg.sceneLoaded cc))
        ops3)
      = [ca, cb, cc] := by
  rw [gdjs.dispatchRuntimeSceneLoaded,
    applyCallbackRegs_sceneLoaded_of_none _ _ h3,
    applyCallbackReg_sceneLoaded,
    applyCallbackRegs_sceneLoaded_of_none _ _ h2,
    applyCallbackReg_sceneLoaded,
    applyCallbackRegs_sceneLoaded_of_none _ _ h1,
    applyCallbackReg_sceneLoaded,
    applyCallbackRegs_sceneLoaded_of_none _ _ h0,
    hst]
  rfl

/-- Concrete instance of the C4 theorem: callbacks 1, 2, 3 on the
scene-loaded list, interleaved with registrations on the four other
kinds. -/
theorem sceneLoaded_callbacks_fire_in_registration_order_witness :
    gdjs.dispatchRuntimeSceneLoaded
      (gdjs.applyCallbackRegs
        (gdjs.applyCallbackReg
          (gdjs.applyCallbackRegs
            (gdjs.applyCallbackReg
              (gdjs.applyCallbackRegs
                (gdjs.applyCallbackReg
                  (gdjs.applyCallbackRegs (gdjs.initialGdjs ℕ ℕ)
                    [gdjs.CallbackReg.scenePaused 7])
                  (gdjs.CallbackReg.sceneLoaded 1))
                [gdjs.CallbackReg.sceneUnloaded 8])
              (gdjs.CallbackReg.sceneLoaded 2))
            [gdjs.CallbackReg.sceneResumed 9])
          (gdjs.CallbackReg.sceneLoaded 3))
        [gdjs.CallbackReg.objectDeletedFromScene 4])
      = [1, 2, 3] :=
  sceneLoaded_callbacks_fire_in_registration_order _ _ _ _ _ _ _ _
    rfl (by decide) (by decide) (by decide) (by decide)

/-- Claim C5: after `clearGlobalCallbacks()` all five callback lists are
empty, so a dispatch of any of the five events invokes zero callbacks. -/
theorem clearGlobalCallbacks_empties_all_lists {α κ : Type} (st : GdjsState α κ) :
    ((gdjs.clearGlobalCallbacks st).1).callbacksRuntimeSceneLoaded = []
  ∧ ((gdjs.clearGlobalCallbacks st).1).callbacksRuntimeSceneUnloaded = []
  ∧ ((gdjs.clearGlobalCallbacks st).1).callbacksRuntimeScenePaused = []
  ∧ ((gdjs.clearGlobalCallbacks st).1).callbacksRuntimeSceneResumed = []
  ∧ ((gdjs.clearGlobalCallbacks st).1).callbacksObjectDeletedFromScene = []
  ∧ gdjs.dispatchRuntimeSceneLoaded (gdjs.clearGlobalCallbacks st).1 = []
  ∧ gdjs.dispatchRuntimeSceneUnloaded (gdjs.clearGlobalCallbacks st).1 = []
  ∧ gdjs.dispatchRuntimeScenePaused (gdjs.clearGlobalCallbacks st).1 = []
  ∧ gdjs.dispatchRuntimeSceneResumed (gdjs.clearGlobalCallbacks st).1 = []
  ∧ gdjs.dispatchObjectDeletedFromScene (gdjs.clearGlobalCallbacks st).1 = [] :=
  ⟨rfl, rfl, rfl, rfl, rfl, rfl, rfl, rfl, rfl, rfl⟩

/-- Claim C6: no deduplication on any of the five event kinds: registering
the same callback twice appends it twice, so one dispatch fires it
twice. -/
theorem callback_registration_no_dedup {α κ : Type} (st : GdjsState α κ) (c : κ) :
    ((gdjs.registerRuntimeSceneLoadedCallback
        (gdjs.registerRuntimeSceneLoadedCallback st c).1 c).1).callbacksRuntimeSceneLoaded
      = st.callbacksRuntimeSceneLoaded ++ [c, c]
  ∧ gdjs.dispatchRuntimeSceneLoaded
      (gdjs.registerRuntimeSceneLoadedCallback
        (gdjs.registerRuntimeSceneLoadedCallback st c).1 c).1
      = st.callbacksRuntimeSceneLoaded ++ [c, c]
  ∧ ((gdjs.registerRuntimeSceneUnloadedCallback
        (gdjs.registerRuntimeSceneUnloadedCallback st c).1 c).1).callbacksRuntimeSceneUnloaded
      = st.callbacksRuntimeSceneUnloaded ++ [c, c]
  ∧ gdjs.dispatchRuntimeSceneUnloaded
      (gdjs.registerRuntimeSceneUnloadedCallback
        (gdjs.registerRuntimeSceneUnloadedCallback st c).1 c).1
      = st.callbacksRuntimeSceneUnloaded ++ [c, c]
  ∧ ((gdjs.registerRuntimeScenePausedCallback
        (gdjs.registerRuntimeScenePausedCallback st c).1 c).1).callbacksRuntimeScenePaused
      = st.callbacksRuntimeScenePaused ++ [c, c]
  ∧ gdjs.dispatchRuntimeScenePaused
      (gdjs.registerRuntimeScenePausedCallback
        (gdjs.registerRuntimeScenePausedCallback st c).1 c).1
      = st.callbacksRuntimeScenePaused ++ [c, c]
  ∧ ((gdjs.registerRuntimeSceneResumedCallback
        (gdjs.registerRuntimeSceneResumedCallback st c).1 c).1).callbacksRuntimeSceneResumed
      = st.callbacksRuntimeSceneResumed ++ [c, c]
  ∧ gdjs.dispatchRuntimeSceneResumed
      (gdjs.registerRuntimeSceneResumedCallback
        (gdjs.registerRuntimeSceneResumedCallback st c).1 c).1
      = st.callbacksRuntimeSceneResumed ++ [c, c]
  ∧ ((gdjs.registerObjectDeletedFromSceneCallback
        (gdjs.registerObjectDeletedFromSceneCallback st c).1 c).1).callbacksObjectDeletedFromScene
      = st.callbacksObjectDeletedFromScene ++ [c, c]
  ∧ gdjs.dispatchObjectDeletedFromScene
      (gdjs.registerObjectDeletedFromSceneCallback
        (gdjs.registerObjectDeletedFromSceneCallback st c).1 c).1
      = st.callbacksObjectDeletedFromScene ++ [c, c] := by
  refine ⟨?_, ?_, ?_, ?_, ?_, ?_, ?_, ?_, ?_, ?_⟩ <;>
    simp [gdjs.registerRuntimeSceneLoadedCallback,
      gdjs.registerRuntimeSceneUnloadedCallback,
      gdjs.registerRuntimeScenePausedCallback,
      gdjs.registerRuntimeSceneResumedCallback,
      gdjs.registerObjectDeletedFromSceneCallback,
      gdjs.dispatchRuntimeSceneLoaded, gdjs.dispatchRuntimeSceneUnloaded,
      gdjs.dispatchRuntimeScenePaused, gdjs.dispatchRuntimeSceneResumed,
      gdjs.dispatchObjectDeletedFromScene]

/-- Claim C7 (evidence of a slip in the code): the body of the deprecated
`registerGlobalCallbacks` calls `console.warning`, a method no standard
host defines (and which `gd.js`, which only guarantees `console.warn` and
`console.error`, never defines either), so instead of printing the
deprecation warning and returning, the call raises a `TypeError`. -/
theorem registerGlobalCallbacks_throws :
    gdjs.registerGlobalCallbacks
      = Except.error "TypeError: console.warning is not a function" := by
  rfl

/-- Claim C8: every registration and reset operation is infallible and
silent: any single call and any sequence of calls of the two registry
registrations, the five callback registrations and the clear, on any
state and any inputs, produce no console output (and, all these
operations being total functions, they cannot fail). -/
theorem registration_and_clear_infallible {α κ : Type} (st : GdjsState α κ)
    (call : gdjs.GdjsCall α κ) (calls : List (gdjs.GdjsCall α κ)) :
    (gdjs.runCall st call).2 = [] ∧ (gdjs.runCalls st calls).2 = [] := by
  refine ⟨runCall_output_nil st call, ?_⟩
  induction calls generalizing st with
  | nil => rfl
  | cons c rest ih => simp [gdjs.runCalls, runCall_output_nil, ih]

/-- Claim C9: with an `undefined` identifier the registry membership test
is short-circuited away: the lookup warns (with `undefined` coerced into
the message) and returns the empty-identifier fallback entry, whatever the
registry contains — including when an entry is stored under the key
`undefined` coerces to. -/
theorem lookup_skips_membership_for_undefined {α κ : Type} (st : GdjsState α κ) :
    gdjs.getObjectConstructor st JSName.undefined
      = (Hashtable.get st.objectsTypes "",
          ["Object type \"undefined\" was not found."])
  ∧ gdjs.getBehaviorConstructor st JSName.undefined
      = (Hashtable.get st.behaviorsTypes "",
          ["Behavior type \"undefined\" was not found."]) :=
  ⟨rfl, rfl⟩

/-- Claim C10: `clearGlobalCallbacks` leaves both type registries
untouched, so object and behavior resolution is the same before and after
for every identifier. -/
theorem clearGlobalCallbacks_preserves_registries {α κ : Type}
    (st : GdjsState α κ) (n : JSName) :
    ((gdjs.clearGlobalCallbacks st).1).objectsTypes = st.objectsTypes
  ∧ ((gdjs.clearGlobalCallbacks st).1).behaviorsTypes = st.behaviorsTypes
  ∧ gdjs.getObjectConstructor (gdjs.clearGlobalCallbacks st).1 n
      = gdjs.getObjectConstructor st n
  ∧ gdjs.getBehaviorConstructor (gdjs.clearGlobalCallbacks st).1 n
      = gdjs.getBehaviorConstructor st n :=
  ⟨rfl, rfl, rfl, rfl⟩
